import Mathlib

/-!
# Comments API: request handlers, filters and mail dispatch

A shallow embedding of the Go sources `internal/data/filters.go`,
`internal/mailer/mailer.go`, `cmd/api/routes.go`, `cmd/api/tokens.go` and
`cmd/api/comments.go`, followed by theorems about them.

Conventions
* Go `string` is `String`, Go `int` is `Int` (no arithmetic that could overflow
  is performed on the values modelled here), a Go `error` is `GoError`, and a
  function returning `(T, error)` returns `Except GoError T`.
* A handler is modelled by the list of calls it makes on its collaborators
  (response helpers, models, the response writer), in program order; the value
  every collaborator returns is read from the `applicationDependencies` record.
-/

namespace Comments

/-! ## Go values -/

/-- A Go `error` value. `isRecordNotFound` is the answer of
`errors.Is(err, data.ErrRecordNotFound)` for it. -/
structure GoError where
  msg : String
  isRecordNotFound : Bool
  deriving DecidableEq, Repr

/-- Go `time.Millisecond`, in nanoseconds (the unit of `time.Duration`). -/
def Millisecond : Nat := 1000000

/-- Go `time.Hour`, in nanoseconds. -/
def Hour : Nat := 3600 * 1000 * Millisecond

/-! ## internal/validator (not among the sources) -/

/-- Modelled from the spec: the `validator` package is not among the sources.
`Errors` is the map from field key to message, kept as an association list. -/
structure Validator where
  Errors : List (String × String)
  deriving DecidableEq, Repr

namespace Validator

/-- Modelled from the spec: `validator.New()` returns a validator with no errors. -/
def New : Validator := ⟨[]⟩

/-- Modelled from the spec: `IsEmpty` reports that no error has been recorded. -/
def IsEmpty (v : Validator) : Bool := v.Errors.isEmpty

/-- Modelled from the spec: `AddError` records a message under a key unless the key
already has one. -/
def AddError (v : Validator) (key message : String) : Validator :=
  if v.Errors.any (fun e => e.1 == key) then v else ⟨v.Errors ++ [(key, message)]⟩

/-- Modelled from the spec: `Check` records the message when the condition is false. -/
def Check (v : Validator) (acceptable : Bool) (key message : String) : Validator :=
  if acceptable then v else v.AddError key message

/-- Modelled from the spec: `PermittedValue` reports whether the value is one of the
permitted values. -/
def PermittedValue (value : String) (permittedValues : List String) : Bool :=
  permittedValues.any (fun p => value == p)

end Validator

/-! ## internal/data/filters.go -/

/-- Go `strings.HasPrefix`. -/
def HasPrefix (s p : String) : Bool := p.data.isPrefixOf s.data

/-- Go `strings.TrimPrefix`: `s` without the leading `p`, or `s` itself when `s`
does not start with `p`. -/
def TrimPrefix (s p : String) : String :=
  if HasPrefix s p then String.mk (s.data.drop p.data.length) else s

/-- Filters holds pagination and sorting information. -/
structure Filters where
  Page : Int
  PageSize : Int
  /-- Go field `Sort` (a reserved word here, hence the lower case). -/
  sort : String
  SortSafeList : List String
  deriving DecidableEq, Repr

/-- ValidateFilters ensures the Filters fields are valid. -/
def ValidateFilters (v : Validator) (f : Filters) : Validator :=
  let v := v.Check (decide (f.Page > 0)) "page" "must be greater than zero"
  let v := v.Check (decide (f.Page ≤ 500)) "page" "must not exceed 500"
  let v := v.Check (decide (f.PageSize > 0)) "page_size" "must be greater than zero"
  let v := v.Check (decide (f.PageSize ≤ 100)) "page_size" "must not exceed 100"
  v.Check (Validator.PermittedValue f.sort f.SortSafeList) "sort" "invalid sort value"

/-- The `for _, safeValue := range f.SortSafeList` loop of `sortColumn`. -/
def sortColumnLoop (sort : String) : List String → String
  | [] => "id"
  | safeValue :: rest =>
    if sort = safeValue then TrimPrefix sort "-" else sortColumnLoop sort rest

/-- Filters.sortColumn determines the column to sort by. -/
def Filters.sortColumn (f : Filters) : String :=
  if f.sort = "" then "id" else sortColumnLoop f.sort f.SortSafeList

/-- Filters.sortDirection determines the sorting direction (ASC or DESC). -/
def Filters.sortDirection (f : Filters) : String :=
  if HasPrefix f.sort "-" then "DESC" else "ASC"

/-- The filters `listCommentsHandler` builds: `getInt key default` and
`getStr key default` stand for `getSingleIntegerParameter` and
`getSingleQueryParameter` applied to the request's query (helpers not among the
sources). -/
def listCommentsFilters (getInt : String → Int → Int) (getStr : String → String → String) :
    Filters :=
  { Page := getInt "page" 1
    PageSize := getInt "page_size" 10
    sort := getStr "sort" "id"
    SortSafeList := ["id", "author", "-id", "-author"] }

/-! ## internal/mailer/mailer.go -/

/-- The message `Send` assembles with `mail.NewMessage`, `SetHeader`, `SetBody` and
`AddAlternative`. -/
structure Message where
  To : String
  From : String
  Subject : String
  plainBody : String
  htmlBody : String
  deriving DecidableEq, Repr

/-- What `Send` does to the outside world, in program order. -/
inductive MailEvent
  | ParseFS (pattern : String)
  | ExecuteTemplate (name : String)
  | DialAndSend (i : Nat) (msg : Message)
  | Sleep (d : Nat)
  | logError (stage : String) (err : GoError)
  | logSent (recipient : String)
  | logAttemptFailed (i : Nat) (recipient : String) (err : GoError)
  | logGaveUp (recipient : String)
  deriving DecidableEq, Repr

/-- Mailer: `sender` is who is sending the email. The template engine and the SMTP
dialer are external; the record holds what they answer: `ParseFS pattern` is the
error of `template.New("email").ParseFS(templateFS, pattern)`, `ExecuteTemplate name`
the text rendered by `tmpl.ExecuteTemplate(buf, name, data)` or its error, and
`DialAndSend i msg` the error (if any) of the `i`-th call of `dialer.DialAndSend`. -/
structure Mailer where
  sender : String
  ParseFS : String → Option GoError
  ExecuteTemplate : String → Except GoError String
  DialAndSend : Nat → Message → Option GoError

/-- The loop `for i := 1; i <= 3; i++ { ... }` of `Send`, from the iteration with
counter `i`; `err` is the current value of the variable `err`. Returns the value
`Send` returns and the events of the loop and of the code after it. -/
def Mailer.sendLoop (m : Mailer) (recipient : String) (msg : Message) (i : Nat)
    (err : Option GoError) : Option GoError × List MailEvent :=
  if i ≤ 3 then
    match m.DialAndSend i msg with
    | none => (none, [MailEvent.DialAndSend i msg, MailEvent.logSent recipient])
    | some e =>
      let rest := m.sendLoop recipient msg (i + 1) (some e)
      (rest.1, MailEvent.DialAndSend i msg :: MailEvent.logAttemptFailed i recipient e ::
        MailEvent.Sleep (500 * Millisecond) :: rest.2)
  else
    (err, [MailEvent.logGaveUp recipient])
termination_by 4 - i

/-- Send the email to the user: returns the error (`none` for `nil`) and the events. -/
def Mailer.Send (m : Mailer) (recipient templateFile : String) :
    Option GoError × List MailEvent :=
  let pattern := "templates/" ++ templateFile
  match m.ParseFS pattern with
  | some err => (some err, [.ParseFS pattern, .logError "parsing email template" err])
  | none =>
  match m.ExecuteTemplate "subject" with
  | .error err =>
    (some err, [.ParseFS pattern, .ExecuteTemplate "subject",
      .logError "executing subject template" err])
  | .ok subject =>
  match m.ExecuteTemplate "plainBody" with
  | .error err =>
    (some err, [.ParseFS pattern, .ExecuteTemplate "subject", .ExecuteTemplate "plainBody",
      .logError "executing plain body template" err])
  | .ok plainBody =>
  match m.ExecuteTemplate "htmlBody" with
  | .error err =>
    (some err, [.ParseFS pattern, .ExecuteTemplate "subject", .ExecuteTemplate "plainBody",
      .ExecuteTemplate "htmlBody", .logError "executing HTML body template" err])
  | .ok htmlBody =>
    let msg : Message := ⟨recipient, m.sender, subject, plainBody, htmlBody⟩
    let out := m.sendLoop recipient msg 1 none
    (out.1, [.ParseFS pattern, .ExecuteTemplate "subject", .ExecuteTemplate "plainBody",
      .ExecuteTemplate "htmlBody"] ++ out.2)

/-- The attempt numbers of the `DialAndSend` calls in a run, in order. -/
def dialAttempts : List MailEvent → List Nat
  | [] => []
  | .DialAndSend i _ :: t => i :: dialAttempts t
  | _ :: t => dialAttempts t

/-- The durations of the `time.Sleep` calls in a run, in order. -/
def sleeps : List MailEvent → List Nat
  | [] => []
  | .Sleep d :: t => d :: sleeps t
  | _ :: t => sleeps t

/-- The events of delivery attempt `i` as the claim describes them: the
`DialAndSend` call, then either the success log, or the failure log followed by a
wait of 500 ms (in nanoseconds). -/
def attemptEvents (m : Mailer) (recipient : String) (msg : Message) (i : Nat) :
    List MailEvent :=
  match m.DialAndSend i msg with
  | none => [MailEvent.DialAndSend i msg, MailEvent.logSent recipient]
  | some e => [MailEvent.DialAndSend i msg, MailEvent.logAttemptFailed i recipient e,
      MailEvent.Sleep 500000000]

/-- The events of the delivery attempts numbered in the list, one after the other. -/
def attemptsTrace (m : Mailer) (recipient : String) (msg : Message) :
    List Nat → List MailEvent
  | [] => []
  | i :: rest => attemptEvents m recipient msg i ++ attemptsTrace m recipient msg rest

/-- The events of `Send` before the delivery loop, when every template renders. -/
def renderEvents (templateFile : String) : List MailEvent :=
  [MailEvent.ParseFS ("templates/" ++ templateFile), MailEvent.ExecuteTemplate "subject",
    MailEvent.ExecuteTemplate "plainBody", MailEvent.ExecuteTemplate "htmlBody"]

/-- A mailer whose templates render and whose SMTP server refuses the first
`failures` deliveries. -/
def flakyMailer (failures : Nat) : Mailer :=
  { sender := "no-reply@example.org"
    ParseFS := fun _ => none
    ExecuteTemplate := fun name => .ok name
    DialAndSend := fun i _ => if i ≤ failures then some ⟨"dial tcp: timeout", false⟩ else none }

/-! ## cmd/api: what the handlers talk to -/

/-- An inbound request, as far as routing and the handlers look at it. -/
structure Request where
  Method : String
  Path : String
  Body : String
  deriving DecidableEq, Repr

/-- A decoded JSON object with string members: member name and value. A member that
is absent from the request body, or is `null` there, is absent from the list. -/
abbrev JSONObject := List (String × String)

/-- Decoding into a Go `string` field: the member's value, or the zero value `""`
when the member is absent. -/
def JSONObject.stringField (o : JSONObject) (key : String) : String :=
  (o.lookup key).getD ""

/-- Decoding into a Go `*string` field: a pointer to the member's value, or `nil`
when the member is absent. -/
def JSONObject.pointerField (o : JSONObject) (key : String) : Option String :=
  o.lookup key

/-- The fields of `data.Comment` the handlers name (`ID`, `Content`, `Author`); the
type declaration is not among the sources, so whatever else it holds is carried
unread in `other`. -/
structure Comment where
  ID : Int
  Content : String
  Author : String
  other : String
  deriving DecidableEq, Repr

/-- The fields of `data.User` the handlers name; `Password` stands for the stored
password record that `Matches` compares against. -/
structure User where
  ID : Int
  Password : String
  deriving DecidableEq, Repr

/-- Modelled from the spec: the token scopes of the `data` package (its declarations
are not among the sources), an enumerated purpose tag, authentication or
activation. -/
inductive Scope
  | ScopeActivation
  | ScopeAuthentication
  deriving DecidableEq, Repr

/-- Modelled from the spec: the `data.Token` record returned by `tokenModel.New`
(declaration not among the sources). -/
structure Token where
  Plaintext : String
  UserID : Int
  Expiry : Nat
  Scope : Scope
  deriving DecidableEq, Repr

/-- A value stored in an `envelope`. -/
inductive Value
  | comment (c : Comment)
  | token (t : Token)
  | text (s : String)
  deriving DecidableEq, Repr

/-- The `envelope` map of the handlers: resource key and value. -/
abbrev envelope := List (String × Value)

/-- Go `http.Header`, as the list of the entries set. -/
abbrev Header := List (String × String)

def StatusOK : Nat := 200
def StatusCreated : Nat := 201
def StatusUnauthorized : Nat := 401

/-- One call a handler makes on something outside itself, with its arguments. -/
inductive Event
  | readJSON
  | readIDParam
  | badRequestResponse (err : GoError)
  | failedValidationResponse (errors : List (String × String))
  | notFoundResponse
  | serverErrorResponse (err : GoError)
  | errorResponseJSON (status : Nat) (message : String)
  | writeJSON (status : Nat) (data : envelope) (headers : Header)
  | Fprintf (text : String)
  | ValidateEmail (email : String)
  | ValidatePasswordPlaintext (password : String)
  | ValidateComment (c : Comment)
  | GetByEmail (email : String)
  | Matches (user : User) (plaintext : String)
  | tokenNew (userID : Int) (ttl : Nat) (scope : Scope)
  | commentInsert (c : Comment)
  | commentGet (id : Int)
  | commentUpdate (c : Comment)
  | commentDelete (id : Int)
  deriving DecidableEq, Repr

/-- The collaborators of the handlers (`applicationDependencies` and the `data` and
`validator` functions they call), none of which is among the sources: each field is
what the collaborator answers. `commentInsert` and `commentUpdate` receive a pointer
and answer the comment as they leave it (the store fills in `ID` and the rest);
the validation functions only read their argument. -/
structure applicationDependencies where
  readJSON : Request → Except GoError JSONObject
  readIDParam : Request → Except GoError Int
  writeJSON : Nat → envelope → Header → Option GoError
  ValidateEmail : Validator → String → Validator
  ValidatePasswordPlaintext : Validator → String → Validator
  ValidateComment : Validator → Comment → Validator
  GetByEmail : String → Except GoError User
  Matches : User → String → Except GoError Bool
  tokenNew : Int → Nat → Scope → Except GoError Token
  commentInsert : Comment → Except GoError Comment
  commentGet : Int → Except GoError Comment
  commentUpdate : Comment → Except GoError Comment
  commentDelete : Int → Option GoError

/-- The tail shared by the handlers: `err = a.writeJSON(w, status, data, headers)`
followed by `if err != nil { a.serverErrorResponse(w, r, err) }`. -/
def writeJSONOrServerError (a : applicationDependencies) (status : Nat) (data : envelope)
    (headers : Header) : List Event :=
  Event.writeJSON status data headers ::
    match a.writeJSON status data headers with
    | some err => [Event.serverErrorResponse err]
    | none => []

/-! ## cmd/api/tokens.go -/

/-- Return a 401 status code. -/
def invalidCredentialsResponse : List Event :=
  let message := "invalid authentication credentials"
  [Event.errorResponseJSON StatusUnauthorized message]

/-- Handler of `POST /v1/tokens/authentication`. -/
def createAuthenticationTokenHandler (a : applicationDependencies) (r : Request) :
    List Event :=
  Event.readJSON ::
  match a.readJSON r with
  | .error err => [Event.badRequestResponse err]
  | .ok body =>
  let Email := body.stringField "email"
  let Password := body.stringField "password"
  let v := Validator.New
  let v := a.ValidateEmail v Email
  let v := a.ValidatePasswordPlaintext v Password
  Event.ValidateEmail Email :: Event.ValidatePasswordPlaintext Password ::
  if !v.IsEmpty then [Event.failedValidationResponse v.Errors] else
  Event.GetByEmail Email ::
  match a.GetByEmail Email with
  | .error err =>
    if err.isRecordNotFound then invalidCredentialsResponse
    else [Event.serverErrorResponse err]
  | .ok user =>
  Event.Matches user Password ::
  match a.Matches user Password with
  | .error err => [Event.serverErrorResponse err]
  | .ok isMatch =>
  if !isMatch then invalidCredentialsResponse else
  Event.tokenNew user.ID (24 * Hour) Scope.ScopeAuthentication ::
  match a.tokenNew user.ID (24 * Hour) Scope.ScopeAuthentication with
  | .error err => [Event.serverErrorResponse err]
  | .ok token =>
  writeJSONOrServerError a StatusCreated [("authentication_token", Value.token token)] []

/-! ## cmd/api/comments.go -/

/-- Go `fmt.Sprintf("%+v\n", incomingData)` for the struct
`{Content string; Author string}`. -/
def formatIncomingData (Content Author : String) : String :=
  "\x7bContent:" ++ Content ++ " Author:" ++ Author ++ "\x7d\n"

/-- Go `fmt.Sprintf("%d", n)` for an integer. -/
def formatInt (n : Int) : String := toString n

/-- Handler of `POST /v1/comments`. -/
def createCommentHandler (a : applicationDependencies) (r : Request) : List Event :=
  Event.readJSON ::
  match a.readJSON r with
  | .error err => [Event.badRequestResponse err]
  | .ok body =>
  let Content := body.stringField "content"
  let Author := body.stringField "author"
  let comment : Comment := { ID := 0, Content := Content, Author := Author, other := "" }
  let v := a.ValidateComment Validator.New comment
  Event.ValidateComment comment ::
  if !v.IsEmpty then [Event.failedValidationResponse v.Errors] else
  Event.commentInsert comment ::
  match a.commentInsert comment with
  | .error err => [Event.serverErrorResponse err]
  | .ok comment =>
  Event.Fprintf (formatIncomingData Content Author) ::
  let headers : Header := [("Location", "/v1/comments/" ++ formatInt comment.ID)]
  let data : envelope := [("comment", Value.comment comment)]
  Event.writeJSON StatusCreated data headers ::
  match a.writeJSON StatusCreated data headers with
  | some err => [Event.serverErrorResponse err]
  | none => [Event.Fprintf (formatIncomingData Content Author)]

/-- The `switch` on a store error shared by the display, update and delete handlers:
`ErrRecordNotFound` gives the not-found response, anything else the server-error
response. -/
def storeErrorResponse (err : GoError) : List Event :=
  if err.isRecordNotFound then [Event.notFoundResponse] else [Event.serverErrorResponse err]

/-- Handler of `GET /v1/comments/:id`. -/
def displayCommentHandler (a : applicationDependencies) (r : Request) : List Event :=
  Event.readIDParam ::
  match a.readIDParam r with
  | .error _ => [Event.notFoundResponse]
  | .ok id =>
  Event.commentGet id ::
  match a.commentGet id with
  | .error err => storeErrorResponse err
  | .ok comment =>
  writeJSONOrServerError a StatusOK [("comment", Value.comment comment)] []

/-- Handler of `PATCH /v1/comments/:id`. -/
def updateCommentHandler (a : applicationDependencies) (r : Request) : List Event :=
  Event.readIDParam ::
  match a.readIDParam r with
  | .error _ => [Event.notFoundResponse]
  | .ok id =>
  Event.commentGet id ::
  match a.commentGet id with
  | .error err => storeErrorResponse err
  | .ok comment =>
  Event.readJSON ::
  match a.readJSON r with
  | .error err => [Event.badRequestResponse err]
  | .ok body =>
  let Content := body.pointerField "content"
  let Author := body.pointerField "author"
  let comment := match Content with
    | some c => { comment with Content := c }
    | none => comment
  let comment := match Author with
    | some au => { comment with Author := au }
    | none => comment
  let v := a.ValidateComment Validator.New comment
  Event.ValidateComment comment ::
  if !v.IsEmpty then [Event.failedValidationResponse v.Errors] else
  Event.commentUpdate comment ::
  match a.commentUpdate comment with
  | .error err => [Event.serverErrorResponse err]
  | .ok comment =>
  writeJSONOrServerError a StatusOK [("comment", Value.comment comment)] []

/-- Handler of `DELETE /v1/comments/:id`. -/
def deleteCommentHandler (a : applicationDependencies) (r : Request) : List Event :=
  Event.readIDParam ::
  match a.readIDParam r with
  | .error _ => [Event.notFoundResponse]
  | .ok id =>
  Event.commentDelete id ::
  match a.commentDelete id with
  | some err => storeErrorResponse err
  | none =>
  writeJSONOrServerError a StatusOK [("message", Value.text "comment successfully deleted")] []

/-! ## Observations on a handler run -/

/-- The calls that send something to the client. -/
def Event.isResponse : Event → Bool
  | .badRequestResponse _ => true
  | .failedValidationResponse _ => true
  | .notFoundResponse => true
  | .serverErrorResponse _ => true
  | .errorResponseJSON _ _ => true
  | .writeJSON _ _ _ => true
  | .Fprintf _ => true
  | _ => false

/-- What a run sends to the client, in order. -/
def responses (run : List Event) : List Event := run.filter Event.isResponse

def Event.isTokenNew : Event → Bool
  | .tokenNew _ _ _ => true
  | _ => false

def Event.isWriteJSON : Event → Bool
  | .writeJSON _ _ _ => true
  | _ => false

def Event.isCommentUpdate : Event → Bool
  | .commentUpdate _ => true
  | _ => false

/-- Go `http.ResponseWriter` as the client sees it: `header` is the map the handler
edits, `status` the status code once the header has been sent, `sentHeader` the
header as it was sent, `body` the bytes written. -/
structure ResponseWriter where
  header : Header
  status : Option Nat
  sentHeader : Header
  body : String
  deriving DecidableEq, Repr

/-- A fresh response writer. -/
def ResponseWriter.fresh : ResponseWriter := ⟨[], none, [], ""⟩

/-- Go `WriteHeader`: sends the header with the status code; a second call is
superfluous and changes nothing. -/
def ResponseWriter.WriteHeader (w : ResponseWriter) (statusCode : Nat) : ResponseWriter :=
  match w.status with
  | some _ => w
  | none => { w with status := some statusCode, sentHeader := w.header }

/-- Go `Write`: if `WriteHeader` has not yet been called, `Write` calls
`WriteHeader(http.StatusOK)` before writing the data. -/
def ResponseWriter.Write (w : ResponseWriter) (b : String) : ResponseWriter :=
  let w := match w.status with
    | none => w.WriteHeader StatusOK
    | some _ => w
  { w with body := w.body ++ b }

/-- Modelled from the spec: the `writeJSON` helper is not among the sources; it
answers with a JSON envelope: it adds the given headers and the JSON content type,
writes the status code and then the envelope rendered by `marshal`. -/
def ResponseWriter.writeJSON (marshal : envelope → String) (w : ResponseWriter)
    (status : Nat) (data : envelope) (headers : Header) : ResponseWriter :=
  let w := { w with header := w.header ++ headers ++ [("Content-Type", "application/json")] }
  (w.WriteHeader status).Write (marshal data)

/-- The response a run leaves on the writer, when the run sends only through
`fmt.Fprintf` and a successful `writeJSON` (the other response helpers are not
among the sources: `none`). -/
def replay (marshal : envelope → String) : List Event → ResponseWriter → Option ResponseWriter
  | [], w => some w
  | .Fprintf text :: t, w => replay marshal t (w.Write text)
  | .writeJSON status data headers :: t, w =>
    replay marshal t (w.writeJSON marshal status data headers)
  | e :: t, w => if e.isResponse then none else replay marshal t w

/-! ## Sample collaborators -/

/-- A store with one user (ID 7, known by `ann@example.org`, password `pa55word`)
and one comment (ID 3); every collaborator succeeds, and `Insert` numbers the new
comment 7. -/
def sampleApp : applicationDependencies :=
  { readJSON := fun r =>
      if r.Body = "bad" then .error ⟨"body contains badly-formed JSON", false⟩
      else if r.Path = "/v1/tokens/authentication" then
        .ok [("email", "ann@example.org"), ("password", r.Body)]
      else if r.Method = "PATCH" then .ok [("content", "")]
      else .ok [("content", "hi"), ("author", "bob")]
    readIDParam := fun r =>
      if r.Path = "/v1/comments/3" then .ok 3
      else if r.Path = "/v1/comments/4" then .ok 4
      else if r.Path = "/v1/comments/5" then .ok 5
      else .error ⟨"invalid id parameter", false⟩
    writeJSON := fun _ _ _ => none
    ValidateEmail := fun v _ => v
    ValidatePasswordPlaintext := fun v _ => v
    ValidateComment := fun v _ => v
    GetByEmail := fun email =>
      if email = "ann@example.org" then .ok ⟨7, "$2a$12$hash"⟩
      else .error ⟨"record not found", true⟩
    Matches := fun _ plaintext => .ok (plaintext == "pa55word")
    tokenNew := fun uid ttl scope => .ok ⟨"TOKEN", uid, ttl, scope⟩
    commentInsert := fun c => .ok { c with ID := 7 }
    commentGet := fun id =>
      if id = 3 then .ok ⟨3, "first", "ann", "v1"⟩
      else if id = 4 then .error ⟨"record not found", true⟩
      else .error ⟨"connection refused", false⟩
    commentUpdate := fun c => .ok c
    commentDelete := fun id =>
      if id = 3 then none
      else if id = 4 then some ⟨"record not found", true⟩
      else some ⟨"connection refused", false⟩ }

/-- The same store without any user. -/
def emptyUsersApp : applicationDependencies :=
  { sampleApp with GetByEmail := fun _ => .error ⟨"record not found", true⟩ }

/-- The run sends `resp` to the client and nothing else, writes no JSON envelope and
never calls `commentModel.Update`. -/
def answersOnly (run : List Event) (resp : Event) : Prop :=
  responses run = [resp] ∧ run.any Event.isWriteJSON = false ∧
    run.any Event.isCommentUpdate = false

instance (run : List Event) (resp : Event) : Decidable (answersOnly run resp) := by
  unfold answersOnly
  infer_instance

/-- The comment `updateCommentHandler` holds after applying a decoded PATCH body to
the stored comment, written field by field: `Content` and `Author` are taken from
the body when present there, everything else from the stored comment. -/
def patched (stored : Comment) (body : JSONObject) : Comment :=
  { ID := stored.ID
    Content := match body.lookup "content" with
      | some s => s
      | none => stored.Content
    Author := match body.lookup "author" with
      | some s => s
      | none => stored.Author
    other := stored.other }

/-! ## cmd/api/routes.go -/

/-- The handlers `routes` registers, by name. -/
inductive HandlerName
  | healthCheckHandler
  | displayCommentHandler
  | createCommentHandler
  | updateCommentHandler
  | deleteCommentHandler
  | listCommentsHandler
  | registerUserHandler
  | activateUserHandler
  | createAuthenticationTokenHandler
  | notFoundResponse
  | methodNotAllowedResponse
  deriving DecidableEq, Repr

/-- A stage a request enters on its way through the handler returned by `routes`. -/
inductive Stage
  | recoverPanic
  | rateLimit
  | authenticate
  | router
  | requireActivatedUser
  | handler (h : HandlerName)
  deriving DecidableEq, Repr

/-- A Go `http.Handler`, observed through the stages a request enters, in order. -/
abbrev Handler := Request → List Stage

/-- A registered business handler: the request enters it and goes no further. -/
def leaf (h : HandlerName) : Handler := fun _ => [Stage.handler h]

/-- Modelled from the spec: the middleware functions are not among the sources. A
middleware either answers the request itself (`none`: rate limited, bad credentials,
not activated) or hands the request, possibly with an identity attached, to the
handler it wraps. -/
structure Middleware where
  forward : Request → Option Request

/-- The handler `m(next)`: the request enters stage `s`, then `next` if forwarded. -/
def Middleware.wrap (m : Middleware) (s : Stage) (next : Handler) : Handler := fun r =>
  s :: match m.forward r with
    | none => []
    | some r' => next r'

/-- The four middleware of `applicationDependencies`. -/
structure Middlewares where
  recoverPanic : Middleware
  rateLimit : Middleware
  authenticate : Middleware
  requireActivatedUser : Middleware

/-- One `router.HandlerFunc(method, path, handler)` registration. -/
structure Route where
  Method : String
  Path : String
  handler : Handler

/-- What `httprouter` (third party) decides for a request: the registered method and
path pattern it matches, not found, method not allowed, or an answer of the router's
own (a redirect, an OPTIONS reply). -/
inductive Lookup
  | found (method pattern : String)
  | notFound
  | methodNotAllowed
  | handledByRouter
  deriving DecidableEq, Repr

/-- The registration of a method and path pattern, if any. -/
def lookupRoute (table : List Route) (method pattern : String) : Option Route :=
  table.find? (fun rt => rt.Method == method && rt.Path == pattern)

/-- The router as a handler: it dispatches to the registration its lookup names, or
to `NotFound` or `MethodNotAllowed`. -/
def serveRouter (resolve : Request → Lookup) (table : List Route)
    (NotFound MethodNotAllowed : Handler) : Handler := fun r =>
  Stage.router :: match resolve r with
    | .found method pattern =>
      match lookupRoute table method pattern with
      | some rt => rt.handler r
      | none => NotFound r
    | .notFound => NotFound r
    | .methodNotAllowed => MethodNotAllowed r
    | .handledByRouter => []

/-- The registrations made by `routes`, in order. -/
def routeTable (a : Middlewares) : List Route :=
  [ ⟨"GET", "/v1/healthcheck", leaf .healthCheckHandler⟩,
    ⟨"GET", "/v1/comments/:id", leaf .displayCommentHandler⟩,
    ⟨"POST", "/v1/comments", leaf .createCommentHandler⟩,
    ⟨"PATCH", "/v1/comments/:id",
      a.requireActivatedUser.wrap .requireActivatedUser (leaf .updateCommentHandler)⟩,
    ⟨"DELETE", "/v1/comments/:id",
      a.requireActivatedUser.wrap .requireActivatedUser (leaf .deleteCommentHandler)⟩,
    ⟨"GET", "/v1/comments",
      a.requireActivatedUser.wrap .requireActivatedUser (leaf .listCommentsHandler)⟩,
    ⟨"POST", "/v1/users", leaf .registerUserHandler⟩,
    ⟨"PUT", "/v1/users/activated", leaf .activateUserHandler⟩,
    ⟨"POST", "/v1/tokens/authentication", leaf .createAuthenticationTokenHandler⟩ ]

/-- The handler returned by `routes()`. -/
def routes (a : Middlewares) (resolve : Request → Lookup) : Handler :=
  let router := serveRouter resolve (routeTable a) (leaf .notFoundResponse)
    (leaf .methodNotAllowedResponse)
  a.recoverPanic.wrap .recoverPanic
    (a.rateLimit.wrap .rateLimit (a.authenticate.wrap .authenticate router))

/-- The handlers behind the protected routes. -/
def HandlerName.isProtected : HandlerName → Bool
  | .updateCommentHandler => true
  | .deleteCommentHandler => true
  | .listCommentsHandler => true
  | _ => false

/-- Middleware that forward every request unchanged. -/
def openMiddlewares : Middlewares :=
  ⟨⟨fun r => some r⟩, ⟨fun r => some r⟩, ⟨fun r => some r⟩, ⟨fun r => some r⟩⟩

/-- A lookup for the sample requests: the comment routes by method. -/
def sampleResolve (r : Request) : Lookup :=
  if r.Path = "/v1/comments" then .found r.Method "/v1/comments"
  else if r.Path = "/v1/comments/3" then .found r.Method "/v1/comments/:id"
  else .notFound

/-- The stages a request can enter after the router: none (the router or the gate
answered), an unprotected handler, or `requireActivatedUser` followed, if it
forwards, by a protected handler. -/
def afterRouter (rest : List Stage) : Prop :=
  rest = [] ∨ (∃ h, h.isProtected = false ∧ rest = [Stage.handler h]) ∨
    rest = [Stage.requireActivatedUser] ∨
    ∃ h, h.isProtected = true ∧ rest = [Stage.requireActivatedUser, Stage.handler h]

/-! # Theorems -/

/-! ## Validator and filters -/

theorem Validator.isEmpty_addError (v : Validator) (key message : String) :
    (v.AddError key message).IsEmpty = false := by
  unfold Validator.AddError Validator.IsEmpty
  split
  · rename_i h
    cases hE : v.Errors with
    | nil => simp [hE] at h
    | cons a l => rfl
  · cases hE : v.Errors <;> simp

theorem Validator.isEmpty_check (v : Validator) (ok : Bool) (key message : String) :
    (v.Check ok key message).IsEmpty = (v.IsEmpty && ok) := by
  unfold Validator.Check
  cases ok
  · simp [Validator.isEmpty_addError]
  · simp

theorem Validator.permittedValue_iff (value : String) (l : List String) :
    Validator.PermittedValue value l = true ↔ value ∈ l := by
  simp [Validator.PermittedValue, List.any_eq_true]

theorem hasPrefix_dash_iff (s : String) :
    HasPrefix s "-" = true ↔ ∃ rest, s.data = '-' :: rest := by
  unfold HasPrefix
  show List.isPrefixOf ['-'] s.data = true ↔ _
  cases s.data with
  | nil => simp [List.isPrefixOf]
  | cons c t =>
    simp [List.isPrefixOf]
    exact eq_comm

theorem sortColumnLoop_safe (sort : String) (l : List String) :
    sortColumnLoop sort l = "id" ∨ ∃ s ∈ l, sortColumnLoop sort l = TrimPrefix s "-" := by
  induction l with
  | nil => exact Or.inl rfl
  | cons a l ih =>
    unfold sortColumnLoop
    by_cases h : sort = a
    · right
      exact ⟨a, List.mem_cons_self a l, by simp [h]⟩
    · rw [if_neg h]
      rcases ih with ih | ⟨s, hs, ih⟩
      · exact Or.inl ih
      · exact Or.inr ⟨s, List.mem_cons_of_mem a hs, ih⟩

theorem sortColumnLoop_not_mem (sort : String) (l : List String) (h : sort ∉ l) :
    sortColumnLoop sort l = "id" := by
  induction l with
  | nil => rfl
  | cons a l ih =>
    unfold sortColumnLoop
    have h1 : sort ≠ a := fun e => h (e ▸ List.mem_cons_self sort l)
    rw [if_neg h1]
    exact ih (fun hm => h (List.mem_cons_of_mem a hm))

/-- C8: starting from an empty validator, `ValidateFilters` leaves no error exactly
when `1 ≤ Page ≤ 500`, `1 ≤ PageSize ≤ 100` and `Sort` is one of the values of
`SortSafeList`; and the filters `listCommentsHandler` builds when every query
helper returns its default (page 1, page_size 10, sort "id", safelist id, author,
-id, -author) are accepted. -/
theorem validateFilters_accepts_iff :
    (∀ f : Filters, (ValidateFilters Validator.New f).IsEmpty = true ↔
      (1 ≤ f.Page ∧ f.Page ≤ 500 ∧ 1 ≤ f.PageSize ∧ f.PageSize ≤ 100 ∧
        f.sort ∈ f.SortSafeList)) ∧
    listCommentsFilters (fun _ d => d) (fun _ d => d) =
      ⟨1, 10, "id", ["id", "author", "-id", "-author"]⟩ ∧
    (ValidateFilters Validator.New
      (listCommentsFilters (fun _ d => d) (fun _ d => d))).IsEmpty = true := by
  refine ⟨fun f => ?_, rfl, by decide⟩
  simp only [ValidateFilters, Validator.isEmpty_check, Bool.and_eq_true, decide_eq_true_eq,
    Validator.permittedValue_iff]
  have h0 : Validator.New.IsEmpty = true := rfl
  rw [h0]
  constructor
  · rintro ⟨⟨⟨⟨⟨-, h1⟩, h2⟩, h3⟩, h4⟩, h5⟩
    exact ⟨by omega, h2, by omega, h4, h5⟩
  · rintro ⟨h1, h2, h3, h4, h5⟩
    exact ⟨⟨⟨⟨⟨rfl, by omega⟩, h2⟩, by omega⟩, h4⟩, h5⟩

/-- C9 (as stated, refuted): with `Sort = "id"` and an empty safelist, `sortColumn`
returns `"id"`, which is the `Sort` value although it is not in the safelist. -/
theorem sortColumn_returns_unlisted_sort :
    ¬ (∀ f : Filters, f.sort ∉ f.SortSafeList → f.sortColumn ≠ f.sort) := by
  intro h
  exact h ⟨1, 10, "id", []⟩ (by simp) (by decide)

/-- C9 (amended): for every `Filters` value `sortColumn` returns `"id"` or an element
of `SortSafeList` with one leading `"-"` trimmed; when `Sort` is not in the safelist
the result is `"id"` (so an unlisted `Sort` is returned only if it is `"id"`); and
`sortDirection` is `"DESC"` exactly when `Sort` begins with `"-"`, `"ASC"` otherwise. -/
theorem sortColumn_safe_and_direction (f : Filters) :
    (f.sortColumn = "id" ∨ ∃ s ∈ f.SortSafeList, f.sortColumn = TrimPrefix s "-") ∧
    (f.sort ∉ f.SortSafeList → f.sortColumn = "id") ∧
    (f.sort ∉ f.SortSafeList → f.sortColumn = f.sort → f.sort = "id") ∧
    (f.sortDirection = "DESC" ↔ ∃ rest, f.sort.data = '-' :: rest) ∧
    (f.sortDirection = "ASC" ↔ ¬ ∃ rest, f.sort.data = '-' :: rest) := by
  have hnm : f.sort ∉ f.SortSafeList → f.sortColumn = "id" := by
    intro h
    unfold Filters.sortColumn
    split
    · rfl
    · exact sortColumnLoop_not_mem _ _ h
  refine ⟨?_, hnm, fun h e => e ▸ hnm h, ?_, ?_⟩
  · unfold Filters.sortColumn
    split
    · exact Or.inl rfl
    · exact sortColumnLoop_safe _ _
  · rw [← hasPrefix_dash_iff]
    unfold Filters.sortDirection
    cases HasPrefix f.sort "-" <;> simp
  · rw [← hasPrefix_dash_iff]
    unfold Filters.sortDirection
    cases HasPrefix f.sort "-" <;> simp

/-- Witness for C9 (amended): `Sort = "zz"` is not in the safelist and the column
is `"id"`. -/
theorem sortColumn_safe_and_direction_witness :
    Filters.sortColumn ⟨1, 10, "zz", ["id", "-id"]⟩ = "id" :=
  (sortColumn_safe_and_direction ⟨1, 10, "zz", ["id", "-id"]⟩).2.1 (by decide)

/-! ## Mailer.Send -/

theorem Mailer.sendLoop_done (m : Mailer) (recipient : String) (msg : Message)
    (err : Option GoError) :
    m.sendLoop recipient msg 4 err = (err, [MailEvent.logGaveUp recipient]) := by
  rw [Mailer.sendLoop]
  simp

theorem Mailer.sendLoop_sent (m : Mailer) (recipient : String) (msg : Message) (i : Nat)
    (err : Option GoError) (hi : i ≤ 3) (h : m.DialAndSend i msg = none) :
    m.sendLoop recipient msg i err =
      (none, [MailEvent.DialAndSend i msg, MailEvent.logSent recipient]) := by
  rw [Mailer.sendLoop]
  simp [hi, h]

theorem Mailer.sendLoop_failed (m : Mailer) (recipient : String) (msg : Message) (i : Nat)
    (err : Option GoError) (e : GoError) (hi : i ≤ 3) (h : m.DialAndSend i msg = some e) :
    m.sendLoop recipient msg i err =
      ((m.sendLoop recipient msg (i + 1) (some e)).1,
        MailEvent.DialAndSend i msg :: MailEvent.logAttemptFailed i recipient e ::
          MailEvent.Sleep (500 * Millisecond) ::
          (m.sendLoop recipient msg (i + 1) (some e)).2) := by
  rw [Mailer.sendLoop]
  simp [hi, h]

/-- C4: once the templates have rendered, `Send` calls `DialAndSend` at most 3 times;
if attempt `k` is the first to succeed, `Send` returns nil and its run is the
rendering followed by exactly the attempts `1..k`, each failed one being the call,
its log line and a 500 ms sleep, in that order; if all 3 attempts fail it returns the
error of the third attempt after three such failed attempts; in every run each failed
`DialAndSend` is directly followed by its log line and a `Sleep` of 500 ms, and no
`Sleep` has another duration. -/
theorem send_bounded_retries (m : Mailer) (recipient templateFile : String)
    (subject plainBody htmlBody : String)
    (hp : m.ParseFS ("templates/" ++ templateFile) = none)
    (hs : m.ExecuteTemplate "subject" = .ok subject)
    (hb : m.ExecuteTemplate "plainBody" = .ok plainBody)
    (hh : m.ExecuteTemplate "htmlBody" = .ok htmlBody) :
    (dialAttempts (m.Send recipient templateFile).2).length ≤ 3 ∧
    (∀ k, 1 ≤ k → k ≤ 3 →
      (∀ j, 1 ≤ j → j < k →
        m.DialAndSend j ⟨recipient, m.sender, subject, plainBody, htmlBody⟩ ≠ none) →
      m.DialAndSend k ⟨recipient, m.sender, subject, plainBody, htmlBody⟩ = none →
      (m.Send recipient templateFile).1 = none ∧
      dialAttempts (m.Send recipient templateFile).2 = List.range' 1 k ∧
      sleeps (m.Send recipient templateFile).2 = List.replicate (k - 1) 500000000 ∧
      (m.Send recipient templateFile).2 = renderEvents templateFile ++
        attemptsTrace m recipient ⟨recipient, m.sender, subject, plainBody, htmlBody⟩
          (List.range' 1 k)) ∧
    ((∀ j, 1 ≤ j → j ≤ 3 →
        m.DialAndSend j ⟨recipient, m.sender, subject, plainBody, htmlBody⟩ ≠ none) →
      (m.Send recipient templateFile).1 =
        m.DialAndSend 3 ⟨recipient, m.sender, subject, plainBody, htmlBody⟩ ∧
      dialAttempts (m.Send recipient templateFile).2 = [1, 2, 3] ∧
      sleeps (m.Send recipient templateFile).2 = [500000000, 500000000, 500000000] ∧
      (m.Send recipient templateFile).2 = renderEvents templateFile ++
        attemptsTrace m recipient ⟨recipient, m.sender, subject, plainBody, htmlBody⟩
          [1, 2, 3] ++ [MailEvent.logGaveUp recipient]) ∧
    (∀ j ∈ dialAttempts (m.Send recipient templateFile).2, ∀ e,
      m.DialAndSend j ⟨recipient, m.sender, subject, plainBody, htmlBody⟩ = some e →
      [MailEvent.DialAndSend j ⟨recipient, m.sender, subject, plainBody, htmlBody⟩,
        MailEvent.logAttemptFailed j recipient e, MailEvent.Sleep 500000000] <:+:
        (m.Send recipient templateFile).2) ∧
    (∀ d, MailEvent.Sleep d ∈ (m.Send recipient templateFile).2 → d = 500000000) := by
  simp only [Mailer.Send, hp, hs, hb, hh]
  generalize hmsg : (⟨recipient, m.sender, subject, plainBody, htmlBody⟩ : Message) = msg
  rcases h1 : m.DialAndSend 1 msg with _ | e1
  · rw [Mailer.sendLoop_sent m recipient msg 1 none (by omega) h1]
    refine ⟨by simp [dialAttempts], ?_, ?_, ?_, ?_⟩
    · intro k hk1 hk3 hprev _
      have : k = 1 := by
        by_contra hne
        exact hprev 1 (by omega) (by omega) h1
      subst this
      simp [dialAttempts, sleeps, renderEvents, attemptsTrace, attemptEvents, h1]
    · intro hall
      exact absurd h1 (hall 1 (by omega) (by omega))
    · intro j hj e he
      simp [dialAttempts] at hj
      subst hj
      rw [h1] at he
      cases he
    · intro d hd
      simp at hd
  · rw [Mailer.sendLoop_failed m recipient msg 1 none e1 (by omega) h1]
    rcases h2 : m.DialAndSend 2 msg with _ | e2
    · rw [Mailer.sendLoop_sent m recipient msg 2 _ (by omega) h2]
      refine ⟨by simp [dialAttempts], ?_, ?_, ?_, ?_⟩
      · intro k hk1 hk3 hprev hk
        have : k = 2 := by
          by_contra hne
          have hk' : k = 1 ∨ k = 3 := by omega
          rcases hk' with rfl | rfl
          · rw [h1] at hk; cases hk
          · exact hprev 2 (by omega) (by omega) h2
        subst this
        simp [dialAttempts, sleeps, Millisecond, List.range', renderEvents, attemptsTrace,
          attemptEvents, h1, h2]
      · intro hall
        exact absurd h2 (hall 2 (by omega) (by omega))
      · intro j hj e he
        simp [dialAttempts] at hj
        rcases hj with rfl | rfl
        · rw [h1] at he
          cases he
          exact ⟨[MailEvent.ParseFS ("templates/" ++ templateFile),
              MailEvent.ExecuteTemplate "subject", MailEvent.ExecuteTemplate "plainBody",
              MailEvent.ExecuteTemplate "htmlBody"],
            [MailEvent.DialAndSend 2 msg, MailEvent.logSent recipient],
            by simp [Millisecond]⟩
        · rw [h2] at he
          cases he
      · intro d hd
        simp [Millisecond] at hd
        exact hd
    · rw [Mailer.sendLoop_failed m recipient msg 2 _ e2 (by omega) h2]
      rcases h3 : m.DialAndSend 3 msg with _ | e3
      · rw [Mailer.sendLoop_sent m recipient msg 3 _ (by omega) h3]
        refine ⟨by simp [dialAttempts], ?_, ?_, ?_, ?_⟩
        · intro k hk1 hk3 hprev hk
          have : k = 3 := by
            by_contra hne
            have hk' : k = 1 ∨ k = 2 := by omega
            rcases hk' with rfl | rfl
            · rw [h1] at hk; cases hk
            · rw [h2] at hk; cases hk
          subst this
          simp [dialAttempts, sleeps, Millisecond, List.range', renderEvents, attemptsTrace,
            attemptEvents, h1, h2, h3]
        · intro hall
          exact absurd h3 (hall 3 (by omega) (by omega))
        · intro j hj e he
          simp [dialAttempts] at hj
          rcases hj with rfl | rfl | rfl
          · rw [h1] at he
            cases he
            exact ⟨[MailEvent.ParseFS ("templates/" ++ templateFile),
                MailEvent.ExecuteTemplate "subject", MailEvent.ExecuteTemplate "plainBody",
                MailEvent.ExecuteTemplate "htmlBody"],
              [MailEvent.DialAndSend 2 msg, MailEvent.logAttemptFailed 2 recipient e2,
                MailEvent.Sleep (500 * Millisecond),
                MailEvent.DialAndSend 3 msg, MailEvent.logSent recipient],
              by simp [Millisecond]⟩
          · rw [h2] at he
            cases he
            exact ⟨[MailEvent.ParseFS ("templates/" ++ templateFile),
                MailEvent.ExecuteTemplate "subject", MailEvent.ExecuteTemplate "plainBody",
                MailEvent.ExecuteTemplate "htmlBody",
                MailEvent.DialAndSend 1 msg, MailEvent.logAttemptFailed 1 recipient e1,
                MailEvent.Sleep (500 * Millisecond)],
              [MailEvent.DialAndSend 3 msg, MailEvent.logSent recipient],
              by simp [Millisecond]⟩
          · rw [h3] at he
            cases he
        · intro d hd
          simp [Millisecond] at hd
          exact hd
      · rw [Mailer.sendLoop_failed m recipient msg 3 _ e3 (by omega) h3,
          Mailer.sendLoop_done]
        refine ⟨by simp [dialAttempts], ?_, ?_, ?_, ?_⟩
        · intro k hk1 hk3 hprev hk
          have hk' : k = 1 ∨ k = 2 ∨ k = 3 := by omega
          rcases hk' with rfl | rfl | rfl
          · rw [h1] at hk; cases hk
          · rw [h2] at hk; cases hk
          · rw [h3] at hk; cases hk
        · intro _
          simp [dialAttempts, sleeps, Millisecond, renderEvents, attemptsTrace,
            attemptEvents, h1, h2, h3]
        · intro j hj e he
          simp [dialAttempts] at hj
          rcases hj with rfl | rfl | rfl
          · rw [h1] at he
            cases he
            exact ⟨[MailEvent.ParseFS ("templates/" ++ templateFile),
                MailEvent.ExecuteTemplate "subject", MailEvent.ExecuteTemplate "plainBody",
                MailEvent.ExecuteTemplate "htmlBody"],
              [MailEvent.DialAndSend 2 msg, MailEvent.logAttemptFailed 2 recipient e2,
                MailEvent.Sleep (500 * Millisecond),
                MailEvent.DialAndSend 3 msg, MailEvent.logAttemptFailed 3 recipient e3,
                MailEvent.Sleep (500 * Millisecond), MailEvent.logGaveUp recipient],
              by simp [Millisecond]⟩
          · rw [h2] at he
            cases he
            exact ⟨[MailEvent.ParseFS ("templates/" ++ templateFile),
                MailEvent.ExecuteTemplate "subject", MailEvent.ExecuteTemplate "plainBody",
                MailEvent.ExecuteTemplate "htmlBody",
                MailEvent.DialAndSend 1 msg, MailEvent.logAttemptFailed 1 recipient e1,
                MailEvent.Sleep (500 * Millisecond)],
              [MailEvent.DialAndSend 3 msg, MailEvent.logAttemptFailed 3 recipient e3,
                MailEvent.Sleep (500 * Millisecond), MailEvent.logGaveUp recipient],
              by simp [Millisecond]⟩
          · rw [h3] at he
            cases he
            exact ⟨[MailEvent.ParseFS ("templates/" ++ templateFile),
                MailEvent.ExecuteTemplate "subject", MailEvent.ExecuteTemplate "plainBody",
                MailEvent.ExecuteTemplate "htmlBody",
                MailEvent.DialAndSend 1 msg, MailEvent.logAttemptFailed 1 recipient e1,
                MailEvent.Sleep (500 * Millisecond),
                MailEvent.DialAndSend 2 msg, MailEvent.logAttemptFailed 2 recipient e2,
                MailEvent.Sleep (500 * Millisecond)],
              [MailEvent.logGaveUp recipient],
              by simp [Millisecond]⟩
        · intro d hd
          simp [Millisecond] at hd
          exact hd

/-- Witness for C4: the SMTP server refuses the first two deliveries; the third
attempt succeeds, and `Send` returns nil after the run: rendering, attempt 1 with
its log line and sleep, attempt 2 with its log line and sleep, attempt 3 and the
success log. -/
theorem send_bounded_retries_witness :
    ((flakyMailer 2).Send "a@b.c" "user_welcome.tmpl").1 = none ∧
    dialAttempts ((flakyMailer 2).Send "a@b.c" "user_welcome.tmpl").2 = List.range' 1 3 ∧
    sleeps ((flakyMailer 2).Send "a@b.c" "user_welcome.tmpl").2 =
      List.replicate (3 - 1) 500000000 ∧
    ((flakyMailer 2).Send "a@b.c" "user_welcome.tmpl").2 =
      renderEvents "user_welcome.tmpl" ++
        attemptsTrace (flakyMailer 2) "a@b.c"
          ⟨"a@b.c", (flakyMailer 2).sender, "subject", "plainBody", "htmlBody"⟩
          (List.range' 1 3) :=
  (send_bounded_retries (flakyMailer 2) "a@b.c" "user_welcome.tmpl" "subject" "plainBody"
    "htmlBody" rfl rfl rfl rfl).2.1 3 (by decide) (by decide)
    (fun j h1 h3 => by
      have hj : j = 1 ∨ j = 2 := by omega
      rcases hj with rfl | rfl <;> simp [flakyMailer])
    (by simp [flakyMailer])

/-! ## createAuthenticationTokenHandler -/

/-- C2: `tokenModel.New` is called if and only if the body decodes, the email and the
password pass validation, `GetByEmail` returns a user without error and `Matches`
returns true without error; the call then carries that user's ID, a TTL of 24 hours
and `ScopeAuthentication`; and it is made at most once per request. -/
theorem token_issued_iff_credentials_verified (a : applicationDependencies) (r : Request) :
    (∀ uid ttl scope,
      Event.tokenNew uid ttl scope ∈ createAuthenticationTokenHandler a r ↔
      ∃ body user,
        a.readJSON r = .ok body ∧
        (a.ValidatePasswordPlaintext (a.ValidateEmail Validator.New (body.stringField "email"))
          (body.stringField "password")).IsEmpty = true ∧
        a.GetByEmail (body.stringField "email") = .ok user ∧
        a.Matches user (body.stringField "password") = .ok true ∧
        uid = user.ID ∧ ttl = 24 * 3600 * 1000000000 ∧ scope = Scope.ScopeAuthentication) ∧
    (createAuthenticationTokenHandler a r).countP Event.isTokenNew ≤ 1 := by
  rcases h1 : a.readJSON r with e1 | body
  · simp [createAuthenticationTokenHandler, h1, Event.isTokenNew]
  · rcases hv : (a.ValidatePasswordPlaintext (a.ValidateEmail Validator.New
        (body.stringField "email")) (body.stringField "password")).IsEmpty
    · simp [createAuthenticationTokenHandler, h1, hv, Event.isTokenNew]
    · rcases h2 : a.GetByEmail (body.stringField "email") with e2 | user
      · by_cases hnf : e2.isRecordNotFound = true <;>
          simp [createAuthenticationTokenHandler, h1, hv, h2, hnf, invalidCredentialsResponse,
            Event.isTokenNew]
      · rcases h3 : a.Matches user (body.stringField "password") with e3 | isMatch
        · simp [createAuthenticationTokenHandler, h1, hv, h2, h3, Event.isTokenNew]
        · cases isMatch
          · simp [createAuthenticationTokenHandler, h1, hv, h2, h3, invalidCredentialsResponse,
              Event.isTokenNew]
          · rcases h4 : a.tokenNew user.ID (24 * Hour) Scope.ScopeAuthentication
              with e4 | token
            · simp [createAuthenticationTokenHandler, h1, hv, h2, h3, h4, Event.isTokenNew,
                List.countP_cons]
              intro uid ttl _
              simp [Hour, Millisecond]
            · rcases hw : a.writeJSON StatusCreated
                  [("authentication_token", Value.token token)] [] with _ | e5 <;>
              · simp [createAuthenticationTokenHandler, h1, hv, h2, h3, h4, hw,
                  writeJSONOrServerError, Event.isTokenNew, List.countP_cons]
                intro uid ttl _
                simp [Hour, Millisecond]

/-- C3: for two validated login requests, one whose email has no user
(`ErrRecordNotFound`) and one whose user exists but whose password does not match,
the handler sends the same single response: status 401 with the message
"invalid authentication credentials". -/
theorem unknown_email_and_wrong_password_same_response
    (a₁ a₂ : applicationDependencies) (r₁ r₂ : Request) (body₁ body₂ : JSONObject)
    (err : GoError) (user : User)
    (hb₁ : a₁.readJSON r₁ = .ok body₁) (hb₂ : a₂.readJSON r₂ = .ok body₂)
    (hv₁ : (a₁.ValidatePasswordPlaintext (a₁.ValidateEmail Validator.New
      (body₁.stringField "email")) (body₁.stringField "password")).IsEmpty = true)
    (hv₂ : (a₂.ValidatePasswordPlaintext (a₂.ValidateEmail Validator.New
      (body₂.stringField "email")) (body₂.stringField "password")).IsEmpty = true)
    (hnone : a₁.GetByEmail (body₁.stringField "email") = .error err)
    (hnf : err.isRecordNotFound = true)
    (huser : a₂.GetByEmail (body₂.stringField "email") = .ok user)
    (hwrong : a₂.Matches user (body₂.stringField "password") = .ok false) :
    responses (createAuthenticationTokenHandler a₁ r₁) =
      [Event.errorResponseJSON 401 "invalid authentication credentials"] ∧
    responses (createAuthenticationTokenHandler a₂ r₂) =
      [Event.errorResponseJSON 401 "invalid authentication credentials"] := by
  constructor
  · simp [createAuthenticationTokenHandler, hb₁, hv₁, hnone, hnf, invalidCredentialsResponse,
      responses, Event.isResponse, StatusUnauthorized]
  · simp [createAuthenticationTokenHandler, hb₂, hv₂, huser, hwrong,
      invalidCredentialsResponse, responses, Event.isResponse, StatusUnauthorized]

/-- Witness for C3: a login against a store without users and a login with a wrong
password against a store that has the user. -/
theorem unknown_email_and_wrong_password_same_response_witness :
    responses (createAuthenticationTokenHandler emptyUsersApp
      ⟨"POST", "/v1/tokens/authentication", "pa55word"⟩) =
      [Event.errorResponseJSON 401 "invalid authentication credentials"] ∧
    responses (createAuthenticationTokenHandler sampleApp
      ⟨"POST", "/v1/tokens/authentication", "wrong-pass"⟩) =
      [Event.errorResponseJSON 401 "invalid authentication credentials"] :=
  unknown_email_and_wrong_password_same_response emptyUsersApp sampleApp
    ⟨"POST", "/v1/tokens/authentication", "pa55word"⟩
    ⟨"POST", "/v1/tokens/authentication", "wrong-pass"⟩
    [("email", "ann@example.org"), ("password", "pa55word")]
    [("email", "ann@example.org"), ("password", "wrong-pass")]
    ⟨"record not found", true⟩ ⟨7, "$2a$12$hash"⟩
    rfl rfl rfl rfl rfl rfl rfl rfl

/-! ## The comment handlers -/

/-- C6: in the display, update and delete handlers an unreadable id parameter or a
store error that is `ErrRecordNotFound` is answered with the not-found response, any
other store error with the server-error response; in each of these cases that
response is the only thing sent, no JSON envelope is written and
`commentModel.Update` is not called. -/
theorem lookup_failure_responses (a : applicationDependencies) (r : Request) :
    ((∀ e, a.readIDParam r = .error e →
        answersOnly (displayCommentHandler a r) Event.notFoundResponse ∧
        answersOnly (updateCommentHandler a r) Event.notFoundResponse ∧
        answersOnly (deleteCommentHandler a r) Event.notFoundResponse) ∧
     (∀ id e, a.readIDParam r = .ok id → a.commentGet id = .error e →
        e.isRecordNotFound = true →
        answersOnly (displayCommentHandler a r) Event.notFoundResponse ∧
        answersOnly (updateCommentHandler a r) Event.notFoundResponse) ∧
     (∀ id e, a.readIDParam r = .ok id → a.commentGet id = .error e →
        e.isRecordNotFound = false →
        answersOnly (displayCommentHandler a r) (Event.serverErrorResponse e) ∧
        answersOnly (updateCommentHandler a r) (Event.serverErrorResponse e)) ∧
     (∀ id e, a.readIDParam r = .ok id → a.commentDelete id = some e →
        e.isRecordNotFound = true →
        answersOnly (deleteCommentHandler a r) Event.notFoundResponse) ∧
     (∀ id e, a.readIDParam r = .ok id → a.commentDelete id = some e →
        e.isRecordNotFound = false →
        answersOnly (deleteCommentHandler a r) (Event.serverErrorResponse e))) := by
  refine ⟨?_, ?_, ?_, ?_, ?_⟩
  · intro e h
    simp [answersOnly, displayCommentHandler, updateCommentHandler, deleteCommentHandler, h,
      responses, Event.isResponse, Event.isWriteJSON, Event.isCommentUpdate]
  · intro id e h hg hnf
    simp [answersOnly, displayCommentHandler, updateCommentHandler, h, hg, hnf,
      storeErrorResponse, responses, Event.isResponse, Event.isWriteJSON,
      Event.isCommentUpdate]
  · intro id e h hg hnf
    simp [answersOnly, displayCommentHandler, updateCommentHandler, h, hg, hnf,
      storeErrorResponse, responses, Event.isResponse, Event.isWriteJSON,
      Event.isCommentUpdate]
  · intro id e h hd hnf
    simp [answersOnly, deleteCommentHandler, h, hd, hnf,
      storeErrorResponse, responses, Event.isResponse, Event.isWriteJSON,
      Event.isCommentUpdate]
  · intro id e h hd hnf
    simp [answersOnly, deleteCommentHandler, h, hd, hnf,
      storeErrorResponse, responses, Event.isResponse, Event.isWriteJSON,
      Event.isCommentUpdate]

/-- Witness for C6: the store cannot be reached for comment 5, and the display and
update handlers answer with the server-error response only. -/
theorem lookup_failure_responses_witness :
    answersOnly (displayCommentHandler sampleApp ⟨"GET", "/v1/comments/5", ""⟩)
      (Event.serverErrorResponse ⟨"connection refused", false⟩) ∧
    answersOnly (updateCommentHandler sampleApp ⟨"GET", "/v1/comments/5", ""⟩)
      (Event.serverErrorResponse ⟨"connection refused", false⟩) :=
  (lookup_failure_responses sampleApp ⟨"GET", "/v1/comments/5", ""⟩).2.2.1 5
    ⟨"connection refused", false⟩ rfl rfl rfl

/-- C7: for a comment fetched from the store and a decoded PATCH body, the comment
the update handler validates, and then passes to `Update` when validation succeeds,
is the stored comment with `Content` replaced only if the body has a content member
(also when that member is the empty string) and `Author` replaced only if the body
has an author member; `ID` and every other field are the stored ones. -/
theorem update_overwrites_only_present_fields (a : applicationDependencies) (r : Request)
    (id : Int) (stored : Comment) (body : JSONObject)
    (hid : a.readIDParam r = .ok id) (hget : a.commentGet id = .ok stored)
    (hbody : a.readJSON r = .ok body) :
    (∃ rest, updateCommentHandler a r =
        [Event.readIDParam, Event.commentGet id, Event.readJSON,
          Event.ValidateComment (patched stored body)] ++ rest ∧
      (∀ c, Event.ValidateComment c ∉ rest) ∧
      (∀ c, Event.commentUpdate c ∈ rest → c = patched stored body) ∧
      ((a.ValidateComment Validator.New (patched stored body)).IsEmpty = true →
        rest.head? = some (Event.commentUpdate (patched stored body)))) ∧
    (body.lookup "content" = none → (patched stored body).Content = stored.Content) ∧
    (∀ s, body.lookup "content" = some s → (patched stored body).Content = s) ∧
    (body.lookup "author" = none → (patched stored body).Author = stored.Author) ∧
    (∀ s, body.lookup "author" = some s → (patched stored body).Author = s) ∧
    (patched stored body).ID = stored.ID ∧ (patched stored body).other = stored.other := by
  refine ⟨?_, ?_, ?_, ?_, ?_, rfl, rfl⟩
  · have hp : (match JSONObject.pointerField body "author" with
        | some au => { (match JSONObject.pointerField body "content" with
            | some c => { stored with Content := c }
            | none => stored) with Author := au }
        | none => (match JSONObject.pointerField body "content" with
            | some c => { stored with Content := c }
            | none => stored)) = patched stored body := by
      unfold patched JSONObject.pointerField
      cases body.lookup "content" <;> cases body.lookup "author" <;> rfl
    rcases hv : (a.ValidateComment Validator.New (patched stored body)).IsEmpty
    · simp [updateCommentHandler, hid, hget, hbody, hp, hv]
    · rcases hu : a.commentUpdate (patched stored body) with e | c
      · simp [updateCommentHandler, hid, hget, hbody, hp, hv, hu]
      · rcases hw : a.writeJSON StatusOK [("comment", Value.comment c)] [] with _ | e <;>
          simp [updateCommentHandler, hid, hget, hbody, hp, hv, hu, hw, writeJSONOrServerError]
  · intro h; simp [patched, h]
  · intro s h; simp [patched, h]
  · intro h; simp [patched, h]
  · intro s h; simp [patched, h]

/-- Witness for C7: a PATCH of comment 3 (content "first", author "ann") whose body
is `{"content": ""}` validates and updates the comment with the empty content and the
author unchanged. -/
theorem update_overwrites_only_present_fields_witness :
    updateCommentHandler sampleApp ⟨"PATCH", "/v1/comments/3", ""⟩ =
      [Event.readIDParam, Event.commentGet 3, Event.readJSON,
        Event.ValidateComment ⟨3, "", "ann", "v1"⟩, Event.commentUpdate ⟨3, "", "ann", "v1"⟩,
        Event.writeJSON 200 [("comment", Value.comment ⟨3, "", "ann", "v1"⟩)] []] ∧
    (patched ⟨3, "first", "ann", "v1"⟩ [("content", "")]).Content = "" ∧
    (patched ⟨3, "first", "ann", "v1"⟩ [("content", "")]).Author = "ann" :=
  ⟨by decide,
   (update_overwrites_only_present_fields sampleApp ⟨"PATCH", "/v1/comments/3", ""⟩ 3
      ⟨3, "first", "ann", "v1"⟩ [("content", "")] rfl rfl rfl).2.2.1 "" rfl,
   (update_overwrites_only_present_fields sampleApp ⟨"PATCH", "/v1/comments/3", ""⟩ 3
      ⟨3, "first", "ann", "v1"⟩ [("content", "")] rfl rfl rfl).2.2.2.1 rfl⟩

/-- Every successful create sends three things, in this order: the dump of the
decoded body, the `writeJSON` call with status 201, the `Location` header and the
`comment` envelope, and the dump again. -/
theorem createComment_success_responses (a : applicationDependencies) (r : Request)
    (body : JSONObject) (c : Comment)
    (hb : a.readJSON r = .ok body)
    (hv : (a.ValidateComment Validator.New
      ⟨0, body.stringField "content", body.stringField "author", ""⟩).IsEmpty = true)
    (hi : a.commentInsert ⟨0, body.stringField "content", body.stringField "author", ""⟩ =
      .ok c)
    (hw : a.writeJSON StatusCreated [("comment", Value.comment c)]
      [("Location", "/v1/comments/" ++ formatInt c.ID)] = none) :
    responses (createCommentHandler a r) =
      [Event.Fprintf (formatIncomingData (body.stringField "content")
          (body.stringField "author")),
        Event.writeJSON 201 [("comment", Value.comment c)]
          [("Location", "/v1/comments/" ++ formatInt c.ID)],
        Event.Fprintf (formatIncomingData (body.stringField "content")
          (body.stringField "author"))] := by
  simp only [StatusCreated] at hw
  simp [createCommentHandler, hb, hv, hi, hw, responses, Event.isResponse, StatusCreated]

/-- C5 (the code at a valid create request, content "hi" and author "bob"): the
handler writes the `%+v` dump of the decoded body to the response before calling
`writeJSON` and again after it. On the response writer the first write sends the
header, so the status is 200 and not 201, the `Location` header is set too late to
be sent, and the body is the dump, the JSON envelope and the dump again. -/
theorem createComment_response_has_debug_output (marshal : envelope → String) :
    createCommentHandler sampleApp ⟨"POST", "/v1/comments", ""⟩ =
      [Event.readJSON, Event.ValidateComment ⟨0, "hi", "bob", ""⟩,
        Event.commentInsert ⟨0, "hi", "bob", ""⟩,
        Event.Fprintf "\x7bContent:hi Author:bob\x7d\n",
        Event.writeJSON 201 [("comment", Value.comment ⟨7, "hi", "bob", ""⟩)]
          [("Location", "/v1/comments/7")],
        Event.Fprintf "\x7bContent:hi Author:bob\x7d\n"] ∧
    (replay marshal (createCommentHandler sampleApp ⟨"POST", "/v1/comments", ""⟩)
        ResponseWriter.fresh).map (fun w => (w.status, w.sentHeader, w.body)) =
      some (some 200, [],
        "\x7bContent:hi Author:bob\x7d\n" ++ marshal [("comment", Value.comment ⟨7, "hi", "bob", ""⟩)]
          ++ "\x7bContent:hi Author:bob\x7d\n") ∧
    "\x7bContent:hi Author:bob\x7d\n" ++ marshal [("comment", Value.comment ⟨7, "hi", "bob", ""⟩)]
        ++ "\x7bContent:hi Author:bob\x7d\n" ≠
      marshal [("comment", Value.comment ⟨7, "hi", "bob", ""⟩)] := by
  have hrun : createCommentHandler sampleApp ⟨"POST", "/v1/comments", ""⟩ =
      [Event.readJSON, Event.ValidateComment ⟨0, "hi", "bob", ""⟩,
        Event.commentInsert ⟨0, "hi", "bob", ""⟩,
        Event.Fprintf "\x7bContent:hi Author:bob\x7d\n",
        Event.writeJSON 201 [("comment", Value.comment ⟨7, "hi", "bob", ""⟩)]
          [("Location", "/v1/comments/7")],
        Event.Fprintf "\x7bContent:hi Author:bob\x7d\n"] := by decide
  refine ⟨hrun, ?_, ?_⟩
  · rw [hrun]
    simp [replay, Event.isResponse, ResponseWriter.Write, ResponseWriter.WriteHeader,
      ResponseWriter.writeJSON, ResponseWriter.fresh, StatusOK]
  · intro h
    have hlen := congrArg String.length h
    simp [String.length_append] at hlen
    have : ("\x7bContent:hi Author:bob\x7d\n" : String).length = 24 := by decide
    omega

/-! ## routes -/

theorem routeTable_shape (a : Middlewares) (rt : Route) (h : rt ∈ routeTable a) :
    (∃ n, n.isProtected = false ∧ rt.handler = leaf n) ∨
    (∃ n, n.isProtected = true ∧
      rt.handler = a.requireActivatedUser.wrap .requireActivatedUser (leaf n)) := by
  simp only [routeTable, List.mem_cons, List.mem_singleton, List.not_mem_nil, or_false] at h
  rcases h with h | h | h | h | h | h | h | h | h <;> subst h
  · exact Or.inl ⟨.healthCheckHandler, rfl, rfl⟩
  · exact Or.inl ⟨.displayCommentHandler, rfl, rfl⟩
  · exact Or.inl ⟨.createCommentHandler, rfl, rfl⟩
  · exact Or.inr ⟨.updateCommentHandler, rfl, rfl⟩
  · exact Or.inr ⟨.deleteCommentHandler, rfl, rfl⟩
  · exact Or.inr ⟨.listCommentsHandler, rfl, rfl⟩
  · exact Or.inl ⟨.registerUserHandler, rfl, rfl⟩
  · exact Or.inl ⟨.activateUserHandler, rfl, rfl⟩
  · exact Or.inl ⟨.createAuthenticationTokenHandler, rfl, rfl⟩

theorem serveRouter_trace (a : Middlewares) (resolve : Request → Lookup) (r : Request) :
    ∃ rest, serveRouter resolve (routeTable a) (leaf .notFoundResponse)
      (leaf .methodNotAllowedResponse) r = Stage.router :: rest ∧ afterRouter rest := by
  unfold serveRouter
  rcases hres : resolve r with ⟨method, pattern⟩ | _ | _ | _
  · simp only []
    rcases hl : lookupRoute (routeTable a) method pattern with _ | rt
    · simp only []
      exact ⟨_, rfl, Or.inr (Or.inl ⟨.notFoundResponse, rfl, rfl⟩)⟩
    · simp only []
      have hmem : rt ∈ routeTable a := List.mem_of_find?_eq_some hl
      rcases routeTable_shape a rt hmem with ⟨n, hn, hh⟩ | ⟨n, hn, hh⟩
      · exact ⟨_, rfl, Or.inr (Or.inl ⟨n, hn, by simp [hh, leaf]⟩)⟩
      · simp only [hh, Middleware.wrap]
        rcases hf : a.requireActivatedUser.forward r with _ | r2
        · exact ⟨_, rfl, Or.inr (Or.inr (Or.inl rfl))⟩
        · exact ⟨_, rfl, Or.inr (Or.inr (Or.inr ⟨n, hn, rfl⟩))⟩
  · exact ⟨_, rfl, Or.inr (Or.inl ⟨.notFoundResponse, rfl, rfl⟩)⟩
  · exact ⟨_, rfl, Or.inr (Or.inl ⟨.methodNotAllowedResponse, rfl, rfl⟩)⟩
  · exact ⟨_, rfl, Or.inl rfl⟩

/-- C1: every request enters `recoverPanic` first, then `rateLimit`, then
`authenticate`, then the router, each only if the stage before it forwards the
request; after the router it enters either an unprotected handler or
`requireActivatedUser`; a protected handler (update, delete, list) is entered only
directly after `requireActivatedUser`, itself after the router and `authenticate`;
and the registrations of `PATCH /v1/comments/:id`, `DELETE /v1/comments/:id` and
`GET /v1/comments` are those handlers wrapped in `requireActivatedUser`. -/
theorem routes_stage_order (a : Middlewares) (resolve : Request → Lookup) (r : Request) :
    (routes a resolve r = [Stage.recoverPanic] ∨
      routes a resolve r = [Stage.recoverPanic, Stage.rateLimit] ∨
      routes a resolve r = [Stage.recoverPanic, Stage.rateLimit, Stage.authenticate] ∨
      ∃ rest, routes a resolve r =
        [Stage.recoverPanic, Stage.rateLimit, Stage.authenticate, Stage.router] ++ rest ∧
        afterRouter rest) ∧
    (∀ h, h.isProtected = true → Stage.handler h ∈ routes a resolve r →
      routes a resolve r = [Stage.recoverPanic, Stage.rateLimit, Stage.authenticate,
        Stage.router, Stage.requireActivatedUser, Stage.handler h]) ∧
    (lookupRoute (routeTable a) "PATCH" "/v1/comments/:id").map (fun rt => rt.handler r) =
      some (a.requireActivatedUser.wrap .requireActivatedUser (leaf .updateCommentHandler) r) ∧
    (lookupRoute (routeTable a) "DELETE" "/v1/comments/:id").map (fun rt => rt.handler r) =
      some (a.requireActivatedUser.wrap .requireActivatedUser (leaf .deleteCommentHandler) r) ∧
    (lookupRoute (routeTable a) "GET" "/v1/comments").map (fun rt => rt.handler r) =
      some (a.requireActivatedUser.wrap .requireActivatedUser (leaf .listCommentsHandler) r) := by
  have horder : routes a resolve r = [Stage.recoverPanic] ∨
      routes a resolve r = [Stage.recoverPanic, Stage.rateLimit] ∨
      routes a resolve r = [Stage.recoverPanic, Stage.rateLimit, Stage.authenticate] ∨
      ∃ rest, routes a resolve r =
        [Stage.recoverPanic, Stage.rateLimit, Stage.authenticate, Stage.router] ++ rest ∧
        afterRouter rest := by
    rcases h1 : a.recoverPanic.forward r with _ | r1
    · exact Or.inl (by simp [routes, Middleware.wrap, h1])
    · rcases h2 : a.rateLimit.forward r1 with _ | r2
      · exact Or.inr (Or.inl (by simp [routes, Middleware.wrap, h1, h2]))
      · rcases h3 : a.authenticate.forward r2 with _ | r3
        · exact Or.inr (Or.inr (Or.inl (by simp [routes, Middleware.wrap, h1, h2, h3])))
        · obtain ⟨rest, hrest, hafter⟩ := serveRouter_trace a resolve r3
          exact Or.inr (Or.inr (Or.inr
            ⟨rest, by simp [routes, Middleware.wrap, h1, h2, h3, hrest], hafter⟩))
  refine ⟨horder, ?_, rfl, rfl, rfl⟩
  intro h hp hmem
  rcases horder with ht | ht | ht | ⟨rest, ht, hrest⟩
  · rw [ht] at hmem; simp at hmem
  · rw [ht] at hmem; simp at hmem
  · rw [ht] at hmem; simp at hmem
  · rw [ht] at hmem ⊢
    rcases hrest with hr | ⟨n, hn, hr⟩ | hr | ⟨n, hn, hr⟩ <;> subst hr
    · simp at hmem
    · simp at hmem
      subst hmem
      rw [hp] at hn
      cases hn
    · simp at hmem
    · simp at hmem
      subst hmem
      rfl

/-- Witness for C1: with middleware that forward everything, `PATCH /v1/comments/3`
reaches the update handler through all five stages. -/
theorem routes_stage_order_witness :
    routes openMiddlewares sampleResolve ⟨"PATCH", "/v1/comments/3", ""⟩ =
      [Stage.recoverPanic, Stage.rateLimit, Stage.authenticate, Stage.router,
        Stage.requireActivatedUser, Stage.handler .updateCommentHandler] :=
  (routes_stage_order openMiddlewares sampleResolve ⟨"PATCH", "/v1/comments/3", ""⟩).2.1
    .updateCommentHandler rfl (by decide)

end Comments
